import Mathlib

/-!
Shallow embedding of the session-token authority of the InformationSystem
repository: the auth service (`src/auth_service/app.py`: `login`,
`validate`, `count_active_sessions`, `active_sessions_loop`) and the
downstream CRM service's validation client
(`src/crm_service/app.py`: `validate_session`).

Modelling conventions:
- Redis is a list of entries carrying an absolute expiry instant
  (`setex k ttl v` at time `now` stores expiry `now + ttl`; `get` at time
  `t` sees the value iff `t < expiry`).  Time is a logical `Nat` clock in
  seconds.
- Store availability is a boolean `storeUp`; `storeUp = false` means every
  Redis call raises, which the Python code catches where shown in the
  source.
- JSON objects whose fields are strings are association lists
  `List (String × String)`; the Python dict-merge in
  `jsonify ... status ok ... session_data` is `dictMerge`.
- Each request handler additionally returns the list of store operations
  it attempted (`StoreOp`), so frame properties (which keys were touched,
  whether a namespace scan happened) are statable.
-/

namespace InfoSys

/-- One Redis entry: key, stored JSON object, absolute expiry instant. -/
structure StoreEntry where
  key : String
  value : List (String × String)
  expireAt : Nat
deriving DecidableEq, Repr

/-- The session store (Redis) contents. -/
abbrev Store := List StoreEntry

/-- Redis SETEX: create or overwrite the key, restarting its expiry clock. -/
def Store.setex (s : Store) (k : String) (ttl : Nat) (v : List (String × String)) (now : Nat) : Store :=
  { key := k, value := v, expireAt := now + ttl } :: s.filter (fun e => e.key != k)

/-- Redis GET: the value, if the key exists and has not expired. -/
def Store.get (s : Store) (k : String) (now : Nat) : Option (List (String × String)) :=
  match s.find? (fun e => e.key == k) with
  | some e => if now < e.expireAt then some e.value else none
  | none => none

/-- Number of live keys matching a prefix pattern, as an SCAN over the
namespace would report. -/
def Store.countMatching (s : Store) (pre : String) (now : Nat) : Nat :=
  (s.filter (fun e => pre.isPrefixOf e.key && decide (now < e.expireAt))).length

/-- A row of the sqlite `users` table. -/
structure UserRec where
  username : String
  password : String
  role : String
deriving DecidableEq, Repr

/-- The credential lookup
`SELECT * FROM users WHERE username=? AND password=?` (first row). -/
def findUser (users : List UserRec) (u p : String) : Option UserRec :=
  users.find? (fun r => r.username == u && r.password == p)

/-- A store operation attempted by a request handler. -/
inductive StoreOp where
  | set (key : String)
  | get (key : String)
  | scan (pat : String)
deriving DecidableEq, Repr

/-- Configured session lifetime in seconds (`SESSION_TTL = 30`). -/
def SESSION_TTL : Nat := 30

/-- Observable outcome of a POST to `/login`. -/
inductive LoginResponse where
  | redirectWithCookie (location cookieName token : String) (maxAge : Nat)
  | loginPage (flashMsg : String)
deriving DecidableEq, Repr

/-- The POST branch of `login` in `src/auth_service/app.py`.
`token` stands for the fresh `uuid.uuid4()` value, `now` for the issuance
instant.  On a successful credential match with the store up, the session
is written and `count_active_sessions` (a namespace scan) is invoked; with
the store down the inner `except` branch flashes the Redis error message
and no session is written. -/
def login (users : List UserRec) (store : Store) (storeUp : Bool)
    (username password token : String) (now : Nat) :
    LoginResponse × Store × List StoreOp :=
  match findUser users username password with
  | some u =>
    if storeUp then
      (LoginResponse.redirectWithCookie "http://localhost:5001/dashboard" "auth_token" token SESSION_TTL,
       Store.setex store ("session:" ++ token) SESSION_TTL [("name", username), ("role", u.role)] now,
       [StoreOp.set ("session:" ++ token), StoreOp.scan "session:*"])
    else
      (LoginResponse.loginPage "Internal error (Redis). Please try again.",
       store,
       [StoreOp.set ("session:" ++ token)])
  | none =>
    (LoginResponse.loginPage "Invalid credentials", store, [])

/-- Python truthiness test for an optional string: `None` and `""` are falsy. -/
def falsyStr : Option String → Bool
  | none => true
  | some s => s == ""

/-- Python `a or b` on optional strings: `b` if `a` is falsy, else `a`. -/
def pyOr (a b : Option String) : Option String :=
  if falsyStr a then b else a

/-- The inputs `validate` reads from the request. -/
structure ValidateRequest where
  queryToken : Option String
  cookieSessionId : Option String
  cookieAuthToken : Option String
deriving DecidableEq, Repr

/-- `request.args.get("token") or request.cookies.get("session_id") or
request.cookies.get("auth_token")`. -/
def extractToken (req : ValidateRequest) : Option String :=
  pyOr (pyOr req.queryToken req.cookieSessionId) req.cookieAuthToken

/-- An HTTP response: status code and JSON body as an association list. -/
structure HttpResponse where
  status : Nat
  body : List (String × String)
deriving DecidableEq, Repr

/-- Python dict insertion: overwrite the key in place if present, else append. -/
def dictInsert (d : List (String × String)) (k v : String) : List (String × String) :=
  if d.any (fun p => p.1 == k) then
    d.map (fun p => if p.1 == k then (k, v) else p)
  else
    d ++ [(k, v)]

/-- Python dict construction with splatting: start from `d` and insert every
entry of `entries` in order (later keys overwrite). -/
def dictMerge (d : List (String × String)) (entries : List (String × String)) : List (String × String) :=
  entries.foldl (fun acc p => dictInsert acc p.1 p.2) d

/-- The handler of `GET /api/validate` in `src/auth_service/app.py`.
Returns the response, the (unchanged) store, and the store operations
attempted. -/
def validate (store : Store) (storeUp : Bool) (req : ValidateRequest) (now : Nat) :
    HttpResponse × Store × List StoreOp :=
  match extractToken req with
  | none => (⟨403, [("status", "error")]⟩, store, [])
  | some token =>
    if token == "" then
      (⟨403, [("status", "error")]⟩, store, [])
    else if storeUp then
      match Store.get store ("session:" ++ token) now with
      | some sessionData =>
        (⟨200, dictMerge [("status", "ok")] sessionData⟩, store,
         [StoreOp.get ("session:" ++ token)])
      | none =>
        (⟨403, [("status", "error")]⟩, store, [StoreOp.get ("session:" ++ token)])
    else
      (⟨500, [("status", "error")]⟩, store, [StoreOp.get ("session:" ++ token)])

/-- Outcome of the CRM client's network call to `/api/validate`:
an exception (unreachable / timeout) or a response with a parsed JSON body. -/
inductive NetResult where
  | netFailure
  | netResponse (status : Nat) (body : List (String × String))
deriving DecidableEq, Repr

/-- Lookup of a key in a parsed JSON object (`data.get(...)`). -/
def dictGet (d : List (String × String)) (k : String) : Option String :=
  (d.find? (fun p => p.1 == k)).map (fun p => p.2)

/-- `validate_session` in `src/crm_service/app.py`.  Returns the session
mapping (or `none` for denial) together with whether the network was
contacted. -/
def validate_session (cookieAuthToken : Option String) (net : NetResult) :
    Option (List (String × String)) × Bool :=
  match cookieAuthToken with
  | none => (none, false)
  | some t =>
    if t == "" then (none, false)
    else
      match net with
      | NetResult.netFailure => (none, true)
      | NetResult.netResponse code body =>
        (if code == 200 && dictGet body "status" == some "ok" then some body else none, true)

/-- `count_active_sessions`: a namespace scan whose failure is caught and
logged; `none` models the caught-exception path (gauge left untouched). -/
def count_active_sessions (store : Store) (storeUp : Bool) (now : Nat) : Option Nat :=
  if storeUp then some (Store.countMatching store "session:" now) else none

/-- What the monitor loop observes at one tick: whether the stop event is
set when `is_set` is checked, whether the store is reachable, and the
store snapshot / clock the scan would see. -/
structure Tick where
  stopSet : Bool
  storeUp : Bool
  snapshot : Store
  time : Nat

/-- `active_sessions_loop`: checks the stop event, and while it is unset
runs `count_active_sessions` and waits (the wait returns early once the
event is set, so the next check observes it).  The returned list holds one
entry per executed counting iteration. -/
def active_sessions_loop : List Tick → List (Option Nat)
  | [] => []
  | tk :: rest =>
    if tk.stopSet then []
    else count_active_sessions tk.snapshot tk.storeUp tk.time :: active_sessions_loop rest

/-- Number of leading ticks at which the stop event is not yet set. -/
def leadingRun : List Tick → Nat
  | [] => 0
  | tk :: rest => if tk.stopSet then 0 else leadingRun rest + 1


/-- Demo credential table used by the concrete witnesses. -/
def demoUsers : List UserRec := [⟨"alice", "secret", "user"⟩]

/-- C1: for credentials accepted by the credential lookup, a successful
login stores a session such that `validate` on the issued token answers
`200` with status ok and the stored record's name and role at any instant
before `SESSION_TTL` seconds have elapsed since issuance, and answers the
`403` error once `SESSION_TTL` seconds have elapsed (expiry measured from
issuance). -/
theorem issued_token_validates
    (users : List UserRec) (store : Store) (u p tok : String) (urec : UserRec)
    (t0 t : Nat)
    (hfind : findUser users u p = some urec)
    (htok : tok ≠ "")
    (hle : t0 ≤ t) :
    urec.username = u ∧
    (t < t0 + SESSION_TTL →
      validate (login users store true u p tok t0).2.1 true
          (ValidateRequest.mk (some tok) none none) t =
        (HttpResponse.mk 200 [("status", "ok"), ("name", u), ("role", urec.role)],
         (login users store true u p tok t0).2.1,
         [StoreOp.get ("session:" ++ tok)])) ∧
    (t0 + SESSION_TTL ≤ t →
      (validate (login users store true u p tok t0).2.1 true
          (ValidateRequest.mk (some tok) none none) t).1 =
        HttpResponse.mk 403 [("status", "error")]) := by
  have hname : urec.username = u := by
    have hp := List.find?_some hfind
    simp only [Bool.and_eq_true, beq_iff_eq] at hp
    exact hp.1
  refine ⟨hname, ?_, ?_⟩
  · intro hlt
    simp [login, hfind, validate, extractToken, pyOr, falsyStr, htok,
      Store.setex, Store.get, dictMerge, dictInsert, hlt]
  · intro hge
    simp [login, hfind, validate, extractToken, pyOr, falsyStr, htok,
      Store.setex, Store.get, Nat.not_lt_of_le hge]

/-- C1 witness: concrete issuance for alice validated at times 10 and 30. -/
theorem issued_token_validates_witness :
    (validate ((login demoUsers [] true "alice" "secret" "tok1" 0).2.1) true
        (ValidateRequest.mk (some "tok1") none none) 10).1 =
      HttpResponse.mk 200 [("status", "ok"), ("name", "alice"), ("role", "user")] ∧
    (validate ((login demoUsers [] true "alice" "secret" "tok1" 0).2.1) true
        (ValidateRequest.mk (some "tok1") none none) 30).1 =
      HttpResponse.mk 403 [("status", "error")] := by
  have h10 := issued_token_validates demoUsers [] "alice" "secret" "tok1"
    ⟨"alice", "secret", "user"⟩ 0 10 (by decide) (by decide) (by decide)
  have h30 := issued_token_validates demoUsers [] "alice" "secret" "tok1"
    ⟨"alice", "secret", "user"⟩ 0 30 (by decide) (by decide) (by decide)
  exact ⟨by rw [h10.2.1 (by decide)], h30.2.2 (by decide)⟩


/-- C2: never-issued tokens, expired tokens and a missing token all get the
identical `403` response with body status error (the first two because
`Store.get` answers `none` both when no entry carries the key and when
every entry with the key has expired), while a store failure during lookup
gets a `500` response, distinguishable from the `403`. -/
theorem validate_failure_taxonomy
    (store : Store) (req : ValidateRequest) (t : String) (now : Nat) :
    (extractToken req = none →
      validate store true req now = (HttpResponse.mk 403 [("status", "error")], store, [])) ∧
    (extractToken req = some t → t ≠ "" → Store.get store ("session:" ++ t) now = none →
      (validate store true req now).1 = HttpResponse.mk 403 [("status", "error")]) ∧
    ((∀ e ∈ store, e.key ≠ "session:" ++ t) → Store.get store ("session:" ++ t) now = none) ∧
    ((∀ e ∈ store, e.expireAt ≤ now) → Store.get store ("session:" ++ t) now = none) ∧
    (extractToken req = some t → t ≠ "" →
      (validate store false req now).1 = HttpResponse.mk 500 [("status", "error")]) ∧
    HttpResponse.mk 500 [("status", "error")] ≠ HttpResponse.mk 403 [("status", "error")] := by
  refine ⟨?_, ?_, ?_, ?_, ?_, by simp⟩
  · intro hext
    simp [validate, hext]
  · intro hext ht hget
    simp [validate, hext, ht, hget]
  · intro habs
    have hfind : store.find? (fun e => e.key == "session:" ++ t) = none := by
      rw [List.find?_eq_none]
      intro e he
      simpa using habs e he
    unfold Store.get
    rw [hfind]
  · intro hexp
    unfold Store.get
    cases hf : store.find? (fun e => e.key == "session:" ++ t) with
    | none => rfl
    | some e =>
      have hmem := List.mem_of_find?_eq_some hf
      simp [Nat.not_lt_of_le (hexp e hmem)]
  · intro hext ht
    simp [validate, hext, ht]

/-- C2 witness: an absent token, a forged token on an empty store, an
expired entry, and a store outage, at concrete inputs. -/
theorem validate_failure_taxonomy_witness :
    validate [] true (ValidateRequest.mk none none none) 0 =
      (HttpResponse.mk 403 [("status", "error")], [], []) ∧
    (validate [] true (ValidateRequest.mk (some "forged") none none) 0).1 =
      HttpResponse.mk 403 [("status", "error")] ∧
    Store.get [StoreEntry.mk "session:old" [("name", "alice"), ("role", "user")] 30] "session:old" 30 = none ∧
    (validate [] false (ValidateRequest.mk (some "forged") none none) 0).1 =
      HttpResponse.mk 500 [("status", "error")] := by
  refine ⟨?_, ?_, ?_, ?_⟩
  · exact (validate_failure_taxonomy [] (ValidateRequest.mk none none none) "" 0).1 (by decide)
  · exact (validate_failure_taxonomy [] (ValidateRequest.mk (some "forged") none none) "forged" 0).2.1
      (by decide) (by decide) (by decide)
  · exact (validate_failure_taxonomy [StoreEntry.mk "session:old" [("name", "alice"), ("role", "user")] 30]
      (ValidateRequest.mk none none none) "old" 30).2.2.2.1 (by decide)
  · exact (validate_failure_taxonomy [] (ValidateRequest.mk (some "forged") none none) "forged" 0).2.2.2.2.1
      (by decide) (by decide)


/-- C3: the CRM validation client denies a request with no (or an empty)
auth cookie without any network contact, and with a cookie present it
denies on network failure, on any non-200 status, and on any body whose
status field is not ok — it never yields an identity in those cases. -/
theorem validate_session_fail_closed
    (net : NetResult) (t : String) (code : Nat) (body : List (String × String)) :
    validate_session none net = (none, false) ∧
    validate_session (some "") net = (none, false) ∧
    (t ≠ "" → validate_session (some t) NetResult.netFailure = (none, true)) ∧
    (t ≠ "" → code ≠ 200 →
      (validate_session (some t) (NetResult.netResponse code body)).1 = none) ∧
    (t ≠ "" → dictGet body "status" ≠ some "ok" →
      (validate_session (some t) (NetResult.netResponse code body)).1 = none) := by
  refine ⟨rfl, by simp [validate_session], ?_, ?_, ?_⟩
  · intro ht
    simp [validate_session, ht]
  · intro ht hcode
    simp [validate_session, ht, hcode]
  · intro ht hstatus
    simp [validate_session, ht, hstatus]

/-- C3 witness: concrete denials — no cookie, network failure, a 500
response, and a 200 response with status error. -/
theorem validate_session_fail_closed_witness :
    validate_session none NetResult.netFailure = (none, false) ∧
    validate_session (some "tok1") NetResult.netFailure = (none, true) ∧
    (validate_session (some "tok1") (NetResult.netResponse 500 [("status", "ok")])).1 = none ∧
    (validate_session (some "tok1") (NetResult.netResponse 200 [("status", "error")])).1 = none := by
  refine ⟨(validate_session_fail_closed NetResult.netFailure "tok1" 500 []).1, ?_, ?_, ?_⟩
  · exact (validate_session_fail_closed NetResult.netFailure "tok1" 500 []).2.2.1 (by decide)
  · exact (validate_session_fail_closed NetResult.netFailure "tok1" 500
      [("status", "ok")]).2.2.2.1 (by decide) (by decide)
  · exact (validate_session_fail_closed NetResult.netFailure "tok1" 200
      [("status", "error")]).2.2.2.2 (by decide) (by decide)

/-- C4: when credentials are valid but the session-store write fails, login
returns the Redis-error page, which differs from the invalid-credentials
page, the store is left unchanged (no session written), and no
redirect-with-cookie response is produced. -/
theorem issuance_fails_on_store_down
    (users : List UserRec) (store : Store) (u p tok : String) (urec : UserRec) (now : Nat)
    (hfind : findUser users u p = some urec) :
    login users store false u p tok now =
      (LoginResponse.loginPage "Internal error (Redis). Please try again.", store,
       [StoreOp.set ("session:" ++ tok)]) ∧
    LoginResponse.loginPage "Internal error (Redis). Please try again." ≠
      LoginResponse.loginPage "Invalid credentials" ∧
    (∀ loc cn cv ma, (login users store false u p tok now).1 ≠
      LoginResponse.redirectWithCookie loc cn cv ma) := by
  refine ⟨by simp [login, hfind], by simp, ?_⟩
  intro loc cn cv ma
  simp [login, hfind]

/-- C4 witness: concrete store-down login for alice. -/
theorem issuance_fails_on_store_down_witness :
    login demoUsers [] false "alice" "secret" "tok1" 0 =
      (LoginResponse.loginPage "Internal error (Redis). Please try again.", [],
       [StoreOp.set "session:tok1"]) ∧
    (login demoUsers [] false "alice" "secret" "tok1" 0).1 ≠
      LoginResponse.redirectWithCookie "http://localhost:5001/dashboard" "auth_token" "tok1" 30 := by
  have h := issuance_fails_on_store_down demoUsers [] "alice" "secret" "tok1"
    ⟨"alice", "secret", "user"⟩ 0 (by decide)
  exact ⟨h.1, h.2.2 "http://localhost:5001/dashboard" "auth_token" "tok1" 30⟩

/-- C5: a login with an existing username but wrong password and a login
with a nonexistent username produce identical results (response, store and
operation trace), namely the generic invalid-credentials page, for any
token/time the two attempts would have used. -/
theorem login_failure_uniform
    (users : List UserRec) (store : Store) (storeUp : Bool)
    (u1 p1 u2 p2 tok1 tok2 : String) (now1 now2 : Nat)
    (hwrong : ∀ r ∈ users, r.username = u1 → r.password ≠ p1)
    (hmissing : ∀ r ∈ users, r.username ≠ u2) :
    login users store storeUp u1 p1 tok1 now1 = login users store storeUp u2 p2 tok2 now2 ∧
    (login users store storeUp u1 p1 tok1 now1).1 = LoginResponse.loginPage "Invalid credentials" := by
  have h1 : findUser users u1 p1 = none := by
    rw [findUser, List.find?_eq_none]
    intro r hr
    simp only [Bool.and_eq_true, beq_iff_eq, not_and]
    exact hwrong r hr
  have h2 : findUser users u2 p2 = none := by
    rw [findUser, List.find?_eq_none]
    intro r hr
    simp only [Bool.and_eq_true, beq_iff_eq, not_and]
    intro hu
    exact absurd hu (hmissing r hr)
  constructor
  · simp [login, h1, h2]
  · simp [login, h1]

/-- C5 witness: wrong password for alice versus login as nonexistent bob. -/
theorem login_failure_uniform_witness :
    login demoUsers [] true "alice" "wrong" "tok1" 0 =
      login demoUsers [] true "bob" "whatever" "tok2" 5 ∧
    (login demoUsers [] true "alice" "wrong" "tok1" 0).1 =
      LoginResponse.loginPage "Invalid credentials" := by
  exact login_failure_uniform demoUsers [] true "alice" "wrong" "bob" "whatever"
    "tok1" "tok2" 0 5 (by decide) (by decide)


/-- C6: `validate` is side-effect-free on the session store — for every
token source, store state and store availability it returns the store
unchanged, and every store operation it attempts is a read (`get`) of a
single key; it never sets, deletes or rewrites any entry, so no TTL is
extended. -/
theorem validate_side_effect_free
    (store : Store) (storeUp : Bool) (req : ValidateRequest) (now : Nat) :
    (validate store storeUp req now).2.1 = store ∧
    ∀ op ∈ (validate store storeUp req now).2.2, ∃ k, op = StoreOp.get k := by
  unfold validate
  cases hext : extractToken req with
  | none => simp
  | some token =>
    by_cases ht : token = ""
    · simp [ht]
    · cases storeUp with
      | false =>
        refine ⟨by simp [ht], ?_⟩
        intro op hop
        simp [ht] at hop
        exact ⟨_, hop⟩
      | true =>
        cases hget : Store.get store ("session:" ++ token) now with
        | none =>
          refine ⟨by simp [ht, hget], ?_⟩
          intro op hop
          simp [ht, hget] at hop
          exact ⟨_, hop⟩
        | some sessionData =>
          refine ⟨by simp [ht, hget], ?_⟩
          intro op hop
          simp [ht, hget] at hop
          exact ⟨_, hop⟩

/-- C6 witness: a concrete validate call leaves a concrete store unchanged
and its one attempted operation is a read. -/
theorem validate_side_effect_free_witness :
    (validate [StoreEntry.mk "session:tok1" [("name", "alice"), ("role", "user")] 30] true
        (ValidateRequest.mk (some "tok1") none none) 10).2.1 =
      [StoreEntry.mk "session:tok1" [("name", "alice"), ("role", "user")] 30] ∧
    ∃ k, StoreOp.get "session:tok1" = StoreOp.get k := by
  have h := validate_side_effect_free
    [StoreEntry.mk "session:tok1" [("name", "alice"), ("role", "user")] 30] true
    (ValidateRequest.mk (some "tok1") none none) 10
  exact ⟨h.1, h.2 (StoreOp.get "session:tok1") (by decide)⟩

/-- C7: the monitor loop executes one counting iteration per tick exactly
until the first tick at which the stop event is observed set: its output is
the count result over precisely the ticks of the leading stop-free run
(so no iteration runs once the signal is observed, and a tick whose scan
fails — store down — still produces an output entry and the loop carries on
to the following ticks regardless of which scans fail), and if a tick at
the cut-off position exists, the stop event is set there. -/
theorem monitor_loop_stop_and_resilient (ticks : List Tick) :
    active_sessions_loop ticks =
      (ticks.take (leadingRun ticks)).map
        (fun tk => count_active_sessions tk.snapshot tk.storeUp tk.time) ∧
    (∀ tk ∈ ticks.take (leadingRun ticks), tk.stopSet = false) ∧
    (∀ tk, ticks.get? (leadingRun ticks) = some tk → tk.stopSet = true) ∧
    (active_sessions_loop (ticks.map (fun tk => Tick.mk tk.stopSet true tk.snapshot tk.time))).length =
      (active_sessions_loop ticks).length := by
  induction ticks with
  | nil => exact ⟨rfl, by simp, by simp, rfl⟩
  | cons tk rest ih =>
    cases hstop : tk.stopSet with
    | true =>
      refine ⟨?_, ?_, ?_, ?_⟩
      · simp [active_sessions_loop, leadingRun, hstop]
      · simp [leadingRun, hstop]
      · intro tk' h
        simp only [leadingRun, hstop, if_true, List.get?] at h
        cases h
        exact hstop
      · simp [active_sessions_loop, leadingRun, hstop]
    | false =>
      refine ⟨?_, ?_, ?_, ?_⟩
      · simp only [active_sessions_loop, leadingRun, hstop, Bool.false_eq_true,
          if_false, List.take_succ_cons, List.map_cons]
        rw [ih.1]
      · intro tk' h
        simp only [leadingRun, hstop, Bool.false_eq_true, if_false,
          List.take_succ_cons, List.mem_cons] at h
        cases h with
        | inl he => rw [he]; exact hstop
        | inr hmem => exact ih.2.1 tk' hmem
      · intro tk' h
        simp only [leadingRun, hstop, Bool.false_eq_true, if_false,
          List.get?_cons_succ] at h
        exact ih.2.2.1 tk' h
      · simp only [List.map_cons, active_sessions_loop, hstop, Bool.false_eq_true,
          if_false, List.length_cons]
        rw [ih.2.2.2]

/-- C7 witness: a five-tick schedule whose second scan fails and whose
fourth tick carries the stop signal: three iterations run, the cut-off
tick has the signal set. -/
theorem monitor_loop_stop_and_resilient_witness :
    active_sessions_loop
        [Tick.mk false true [] 0, Tick.mk false false [] 1, Tick.mk false true [] 2,
         Tick.mk true true [] 3, Tick.mk false true [] 4] =
      [some 0, none, some 0] ∧
    (Tick.mk true true ([] : Store) 3).stopSet = true := by
  have h := monitor_loop_stop_and_resilient
    [Tick.mk false true [] 0, Tick.mk false false [] 1, Tick.mk false true [] 2,
     Tick.mk true true [] 3, Tick.mk false true [] 4]
  refine ⟨?_, ?_⟩
  · rw [h.1]; rfl
  · exact h.2.2.1 (Tick.mk true true [] 3) (by rfl)

/-- C8 counterexample: a concrete successful login — a request-handling
issuance, not the Monitor — attempts the `session:*` namespace scan
(`login` invokes `count_active_sessions` right after the session write),
so the scan is not invoked only by the Active-Session Monitor. -/
theorem login_performs_scan_counterexample :
    StoreOp.scan "session:*" ∈ (login demoUsers [] true "alice" "secret" "tok1" 0).2.2 := by
  decide

/-- C8 (amended): validation performs no namespace scan and touches only
the single key it looks up, and issuance writes only the single key for
the token it creates, its only other store access being the `session:*`
gauge-refresh scan it performs after a successful write. -/
theorem request_handler_store_footprint
    (users : List UserRec) (store : Store) (storeUp : Bool)
    (u p tok : String) (now : Nat) (req : ValidateRequest) :
    (∀ op ∈ (validate store storeUp req now).2.2,
      ∃ t, extractToken req = some t ∧ op = StoreOp.get ("session:" ++ t)) ∧
    (∀ pat, StoreOp.scan pat ∉ (validate store storeUp req now).2.2) ∧
    (∀ op ∈ (login users store storeUp u p tok now).2.2,
      op = StoreOp.set ("session:" ++ tok) ∨ op = StoreOp.scan "session:*") := by
  have hval : ∀ op ∈ (validate store storeUp req now).2.2,
      ∃ t, extractToken req = some t ∧ op = StoreOp.get ("session:" ++ t) := by
    unfold validate
    cases hext : extractToken req with
    | none => simp
    | some token =>
      by_cases ht : token = ""
      · simp [ht]
      · cases storeUp with
        | false =>
          intro op hop
          simp [ht] at hop
          exact ⟨token, rfl, hop⟩
        | true =>
          cases hget : Store.get store ("session:" ++ token) now with
          | none =>
            intro op hop
            simp [ht, hget] at hop
            exact ⟨token, rfl, hop⟩
          | some sessionData =>
            intro op hop
            simp [ht, hget] at hop
            exact ⟨token, rfl, hop⟩
  refine ⟨hval, ?_, ?_⟩
  · intro pat hmem
    obtain ⟨t, _, hk⟩ := hval (StoreOp.scan pat) hmem
    exact StoreOp.noConfusion hk
  · unfold login
    cases findUser users u p with
    | none => simp
    | some urec =>
      cases storeUp with
      | false =>
        intro op hop
        simp at hop
        exact Or.inl hop
      | true =>
        intro op hop
        simp only [if_true, List.mem_cons, List.not_mem_nil, or_false] at hop
        cases hop with
        | inl h => exact Or.inl h
        | inr h2 => exact Or.inr h2


/-- C8 amended-claim witness: at concrete inputs, the validate trace entry
is a read of the looked-up key, the validate trace carries no scan, and
each login trace entry is the single session write or the gauge scan. -/
theorem request_handler_store_footprint_witness :
    (∃ t, extractToken (ValidateRequest.mk (some "tok1") none none) = some t ∧
      StoreOp.get "session:tok1" = StoreOp.get ("session:" ++ t)) ∧
    StoreOp.scan "session:*" ∉
      (validate [] true (ValidateRequest.mk (some "tok1") none none) 0).2.2 ∧
    (StoreOp.scan "session:*" = StoreOp.set "session:tok1" ∨
      StoreOp.scan "session:*" = StoreOp.scan "session:*") := by
  have h := request_handler_store_footprint demoUsers [] true "alice" "secret" "tok1" 0
    (ValidateRequest.mk (some "tok1") none none)
  refine ⟨h.1 (StoreOp.get "session:tok1") (by decide), h.2.1 "session:*", ?_⟩
  exact h.2.2 (StoreOp.scan "session:*") (by decide)

/-- C9: token extraction follows Python-or precedence — a non-empty query
parameter wins; with the query parameter absent or empty the `session_id`
cookie is used if non-empty; otherwise the `auth_token` cookie; and when
all three sources are absent or empty (empty strings being falsy, hence
treated like absence), `validate` answers the missing-token `403` error
having attempted no store operation. -/
theorem token_extraction_precedence
    (q sid ca : Option String) (s : String) (store : Store) (storeUp : Bool) (now : Nat) :
    (s ≠ "" → extractToken (ValidateRequest.mk (some s) sid ca) = some s) ∧
    (falsyStr q = true → s ≠ "" → extractToken (ValidateRequest.mk q (some s) ca) = some s) ∧
    (falsyStr q = true → falsyStr sid = true →
      extractToken (ValidateRequest.mk q sid (some s)) = some s) ∧
    (falsyStr q = true → falsyStr sid = true → falsyStr ca = true →
      validate store storeUp (ValidateRequest.mk q sid ca) now =
        (HttpResponse.mk 403 [("status", "error")], store, [])) := by
  refine ⟨?_, ?_, ?_, ?_⟩
  · intro hs
    simp [extractToken, pyOr, falsyStr, hs]
  · intro hq hs
    have hfs : falsyStr (some s) = (s == "") := rfl
    simp [extractToken, pyOr, hq, hfs, hs]
  · intro hq hsid
    simp [extractToken, pyOr, hq, hsid]
  · intro hq hsid hca
    have hext : extractToken (ValidateRequest.mk q sid ca) = ca := by
      simp [extractToken, pyOr, hq, hsid]
    unfold validate
    rw [hext]
    cases ca with
    | none => rfl
    | some c =>
      have hc : c = "" := by simpa [falsyStr] using hca
      simp [hc]

/-- C9 witness: the query parameter wins over both cookies; an empty query
parameter falls through to the `session_id` cookie, then to the
`auth_token` cookie; all-empty sources get the missing-token error. -/
theorem token_extraction_precedence_witness :
    extractToken (ValidateRequest.mk (some "q") (some "sid") (some "ca")) = some "q" ∧
    extractToken (ValidateRequest.mk (some "") (some "sid") (some "ca")) = some "sid" ∧
    extractToken (ValidateRequest.mk none (some "") (some "ca")) = some "ca" ∧
    validate [] true (ValidateRequest.mk (some "") none (some "")) 0 =
      (HttpResponse.mk 403 [("status", "error")], [], []) := by
  refine ⟨?_, ?_, ?_, ?_⟩
  · exact (token_extraction_precedence (some "") (some "sid") (some "ca") "q" [] true 0).1
      (by decide)
  · exact (token_extraction_precedence (some "") none (some "ca") "sid" [] true 0).2.1
      (by decide) (by decide)
  · exact (token_extraction_precedence none (some "") none "ca" [] true 0).2.2.1
      (by decide) (by decide)
  · exact (token_extraction_precedence (some "") none (some "") "x" [] true 0).2.2.2
      (by decide) (by decide) (by decide)

/-- C10: a successful validate response has body equal to a status-ok field
merged (dict semantics, later keys overwriting) with every field of the
stored record, and for a session stored by a successful login — which
stores exactly a name and a role — the body's key list is exactly
status, name, role. -/
theorem validate_ok_body_shape
    (store : Store) (req : ValidateRequest) (t : String) (data : List (String × String))
    (now : Nat) (users : List UserRec) (u p tok : String) (urec : UserRec) (t0 : Nat) :
    (extractToken req = some t → t ≠ "" → Store.get store ("session:" ++ t) now = some data →
      (validate store true req now).1 = HttpResponse.mk 200 (dictMerge [("status", "ok")] data)) ∧
    (findUser users u p = some urec → tok ≠ "" → now < t0 + SESSION_TTL →
      ((validate (login users store true u p tok t0).2.1 true
          (ValidateRequest.mk (some tok) none none) now).1.body.map Prod.fst =
        ["status", "name", "role"])) := by
  constructor
  · intro hext ht hget
    simp [validate, hext, ht, hget]
  · intro hfind htok hnow
    simp [login, hfind, validate, extractToken, pyOr, falsyStr, htok,
      Store.setex, Store.get, hnow, dictMerge, dictInsert]

/-- C10 witness: a concrete stored record merged into the response, and the
exact key list after a concrete issuance. -/
theorem validate_ok_body_shape_witness :
    (validate [StoreEntry.mk "session:tok1" [("name", "alice"), ("role", "user")] 30] true
        (ValidateRequest.mk (some "tok1") none none) 10).1 =
      HttpResponse.mk 200 (dictMerge [("status", "ok")] [("name", "alice"), ("role", "user")]) ∧
    ((validate (login demoUsers [] true "alice" "secret" "tok1" 0).2.1 true
        (ValidateRequest.mk (some "tok1") none none) 10).1.body.map Prod.fst =
      ["status", "name", "role"]) := by
  have h := validate_ok_body_shape
    [StoreEntry.mk "session:tok1" [("name", "alice"), ("role", "user")] 30]
    (ValidateRequest.mk (some "tok1") none none) "tok1" [("name", "alice"), ("role", "user")]
    10 demoUsers "alice" "secret" "tok1" ⟨"alice", "secret", "user"⟩ 0
  refine ⟨h.1 (by decide) (by decide) (by decide), h.2 (by decide) (by decide) (by decide)⟩

end InfoSys
